import Mathlib

/-! Shallow embedding of the per-turn decision engine in src/app of the
Agentic Honeypot repository: the scam detector (detector.py / config.py),
the intelligence extractor and its merge (extract.py), the bounded strategy
selector and reply composer (agent.py), the turn handler with termination
policy and callback dispatch (main.py), and the transport body guard
(main.py middleware). External effects are modelled as explicit oracle
parameters: the OpenAI chat calls return an arbitrary optional string, the
callback POST returns an arbitrary boolean, and the stdlib sha256 digest
used for template indexing is an arbitrary fixed function of the seed
string. Everything else is translated from the Python source. -/

/-! ## Character and string helpers (Python str semantics, ASCII range) -/

/-- Python whitespace class: the characters matched by regex `\s` and
stripped by `str.strip()` in the ASCII range. -/
def isPySpace (c : Char) : Bool :=
  c == ' ' || c == '\t' || c == '\n' || c == '\r' || c == '\x0b' || c == '\x0c'

/-- Python regex `\w` word character in the ASCII range. -/
def isWordChar (c : Char) : Bool :=
  c.isAlpha || c.isDigit || c == '_'

/-- Python `str.lower()` applied character-wise (ASCII case folding). -/
def toLowerStr (s : String) : String :=
  String.mk (s.data.map Char.toLower)

/-- Drop leading and trailing Python whitespace from a character list
(`str.strip()`). -/
def stripCL (cs : List Char) : List Char :=
  ((cs.dropWhile isPySpace).reverse.dropWhile isPySpace).reverse

/-- Python `str.strip()`. -/
def pyStrip (s : String) : String :=
  String.mk (stripCL s.data)

/-- Does the pattern occur at the head of the list? -/
def startsWithCL : List Char → List Char → Bool
  | [], _ => true
  | _ :: _, [] => false
  | p :: ps, c :: cs => p == c && startsWithCL ps cs

/-- Does the pattern occur as a contiguous run anywhere in the list? -/
def occursIn (pat : List Char) : List Char → Bool
  | [] => startsWithCL pat []
  | c :: cs => startsWithCL pat (c :: cs) || occursIn pat cs

/-- Python substring test `pat in s` (both arguments plain strings). -/
def containsSub (s pat : String) : Bool :=
  occursIn pat.data s.data

/-- Characters kept by `_normalize_text` in agent.py: the regex
`[^a-z0-9]+` deletes everything but lower-case letters and digits. -/
def isLowerAlnum (c : Char) : Bool :=
  c.isLower || c.isDigit

/-- `_normalize_text` from agent.py: lower-case, then delete every
character outside `[a-z0-9]`. -/
def normalize_text (text : String) : String :=
  String.mk ((toLowerStr text).data.filter isLowerAlnum)

/-- Sentence-ending punctuation of `_limit_sentences` (regex `[.!?]`). -/
def isSentEnd (c : Char) : Bool :=
  c == '.' || c == '!' || c == '?'

/-- Is the head of the list a Python whitespace character? -/
def headIsSpace : List Char → Bool
  | [] => false
  | c :: _ => isPySpace c

/-- Splitting on the regex `(?<=[.!?])\s+` as `re.split` does: a cut
happens between a sentence-ending character and a following whitespace
run, and the whitespace run is consumed as the delimiter.  When `skip` is
true the scanner is inside the delimiter whitespace run and `acc` is
empty. -/
def splitSentGo (skip : Bool) (acc : List Char) : List Char → List (List Char)
  | [] => [acc.reverse]
  | c :: rest =>
    if skip && isPySpace c then
      splitSentGo true acc rest
    else if isSentEnd c && headIsSpace rest then
      (c :: acc).reverse :: splitSentGo true [] rest
    else
      splitSentGo false (c :: acc) rest

/-- Python `" ".join(parts)` over character lists. -/
def joinSpace : List (List Char) → List Char
  | [] => []
  | [x] => x
  | x :: y :: rest => x ++ ' ' :: joinSpace (y :: rest)

/-- `_limit_sentences` from agent.py: split the stripped text after
sentence-ending punctuation, keep the first `maxSentences` fragments,
join with a space and strip. The empty string is returned unchanged. -/
def limit_sentences (text : String) (maxSentences : Nat) : String :=
  if text == "" then text
  else
    let parts := splitSentGo false [] (stripCL text.data)
    String.mk (stripCL (joinSpace (parts.take maxSentences)))

/-! ## Data model (models.py) -/

/-- Field sets shared by the pydantic models `Intelligence` and
`ExtractionResult` in models.py; the two classes have identical fields, so
one structure stands for both. -/
structure Intelligence where
  bankAccounts : List String
  upiIds : List String
  phishingLinks : List String
  phoneNumbers : List String
  suspiciousKeywords : List String
deriving DecidableEq, Repr

/-- `ExtractionResult` of models.py (same fields as `Intelligence`). -/
abbrev ExtractionResult := Intelligence

/-- `DetectorResult` of models.py; the float score is embedded as a
rational. -/
structure DetectorResult where
  score : ℚ
  indicators : List String
deriving DecidableEq, Repr

/-- `SessionState` of models.py. -/
structure SessionState where
  sessionId : String
  scamScore : ℚ
  scamConfirmed : Bool
  agentActive : Bool
  totalMessagesExchanged : Nat
  lastReply : Option String
  turnsSinceChange : Nat
  terminated : Bool
  finalCallbackSent : Bool
  extractedIntelligence : Intelligence
  lastScammerMessage : Option String
  agentNotes : String
  missingSlots : List String
  recentScammer : List String
  recentHoneypot : List String
deriving DecidableEq, Repr

/-- `Message` of models.py (named PyMessage here to avoid clashing with
library names); the metadata model is ignored by the engine. -/
structure PyMessage where
  sender : String
  text : String
  timestamp : String
deriving DecidableEq, Repr

/-- `IncomingRequest` of models.py (the optional metadata block is never
read by the turn handler and is omitted). -/
structure IncomingRequest where
  sessionId : String
  message : PyMessage
  conversationHistory : Option (List PyMessage)
deriving DecidableEq, Repr

/-- `AgentReply` of models.py. -/
structure AgentReply where
  reply : String
  agentNotes : String
  shouldTerminate : Bool
deriving DecidableEq, Repr

/-- `Settings` of config.py; floats are embedded as rationals. -/
structure Settings where
  api_key : String
  scam_threshold : ℚ
  max_turns : Nat
  callback_url : String
  http_timeout_seconds : ℚ
  persona_name : String
  openai_api_key : String
  openai_model : String
deriving DecidableEq, Repr

/-! ## Sorted deduplicated sets of strings

Python builds `set`s of strings and renders them with `sorted(...)`.
`sortStr` below produces the strictly increasing enumeration of the
distinct elements in the code-point lexicographic order, which is exactly
what `sorted` returns on a set of the ASCII data involved.  The order and
the sort are written structurally so that every result is computable by
plain reduction; canonicity (the result depends only on the membership
set) is proved below. -/

/-- Code-point lexicographic strict comparison of character lists: the
order Python `sorted` uses on strings. -/
def lexLt : List Char → List Char → Bool
  | _, [] => false
  | [], _ :: _ => true
  | a :: as, b :: bs => Nat.blt a.toNat b.toNat || (a == b && lexLt as bs)

/-- Insert a string into a strictly sorted deduplicated list, keeping it
strictly sorted and deduplicated. -/
def insertStr (x : String) : List String → List String
  | [] => [x]
  | y :: ys =>
    if x == y then y :: ys
    else if lexLt x.data y.data then x :: y :: ys
    else y :: insertStr x ys

/-- Python `sorted(set(l))`. -/
def sortStr (l : List String) : List String :=
  l.foldr insertStr []

/-- Python `sorted(set(xs).union(ys))`: field-wise merge primitive of
`merge_extraction` in extract.py (the union of two sets has the members
of the concatenation). -/
def unionSorted (xs ys : List String) : List String :=
  sortStr (xs ++ ys)

/-- `merge_extraction` from extract.py: field-wise set union, then sorted. -/
def merge_extraction (existing incoming : ExtractionResult) : ExtractionResult :=
  { bankAccounts := unionSorted existing.bankAccounts incoming.bankAccounts
    upiIds := unionSorted existing.upiIds incoming.upiIds
    phishingLinks := unionSorted existing.phishingLinks incoming.phishingLinks
    phoneNumbers := unionSorted existing.phoneNumbers incoming.phoneNumbers
    suspiciousKeywords := unionSorted existing.suspiciousKeywords incoming.suspiciousKeywords }

/-! ## Regex machinery (extract.py and detector.py patterns)

Direct models of the four compiled patterns, as leftmost non-overlapping
`findall` scans with Python backtracking preference (greedy), over
character lists. -/

/-- Python `\b` word boundary between two adjacent positions: exactly one
side is a word character (absent neighbours are non-word). -/
def boundaryB (p n : Option Char) : Bool :=
  (match p with | none => false | some c => isWordChar c) !=
  (match n with | none => false | some c => isWordChar c)

/-- Candidates for the group `(?:\d[ -]?){9,18}` of `_BANK_PATTERN`, in
backtracking preference order (more repetitions first, and inside one
repetition the optional separator taken first).  `fuel` is the number of
repetitions still allowed, starting from 18, so `18 - fuel` repetitions
are already consumed and stopping is legal once that count reaches 9.
Each candidate is (consumed length, remaining characters). -/
def bankCands : Nat → List Char → List (Nat × List Char)
  | 0, cs => [(0, cs)]
  | fuel + 1, cs =>
    let deeper :=
      match cs with
      | [] => []
      | c :: rest =>
        if c.isDigit then
          match rest with
          | s :: rest2 =>
            if s == ' ' || s == '-' then
              ((bankCands fuel rest2).map (fun pr => (pr.1 + 2, pr.2))) ++
              ((bankCands fuel rest).map (fun pr => (pr.1 + 1, pr.2)))
            else
              (bankCands fuel rest).map (fun pr => (pr.1 + 1, pr.2))
          | [] => (bankCands fuel []).map (fun pr => (pr.1 + 1, pr.2))
        else []
    if 18 - (fuel + 1) ≥ 9 then deeper ++ [(0, cs)] else deeper

/-- Length of the `_BANK_PATTERN` match starting here, if any: regex
`\b(?:\d[ -]?){9,18}\b` with `prev` the character before this position. -/
def bankMatchLen (prev : Option Char) (cs : List Char) : Option Nat :=
  if boundaryB prev cs.head? then
    ((bankCands 18 cs).find? (fun pr =>
      decide (0 < pr.1) && boundaryB (cs.get? (pr.1 - 1)) pr.2.head?)).map Prod.fst
  else none

/-- `_BANK_PATTERN.findall`: leftmost non-overlapping matches, resuming
after each match end.  The fuel argument only bounds the recursion; every
step consumes at least one character, so `length + 1` fuel never runs
out. -/
def bankScanGo (fuel : Nat) (prev : Option Char) (cs : List Char) : List String :=
  match fuel, cs with
  | 0, _ => []
  | _, [] => []
  | Nat.succ f, c :: rest =>
    match bankMatchLen prev (c :: rest) with
    | some len =>
      String.mk ((c :: rest).take len) ::
        bankScanGo f ((c :: rest).get? (len - 1)) (rest.drop (len - 1))
    | none => bankScanGo f (some c) rest

/-- `_BANK_PATTERN.findall` over a whole text (no character precedes the
first position). -/
def bankScan (prev : Option Char) (cs : List Char) : List String :=
  bankScanGo (cs.length + 1) prev cs

/-- Character class `[\d\s\-]` of `_PHONE_PATTERN`. -/
def isPhoneClass (c : Char) : Bool :=
  c.isDigit || isPySpace c || c == '-'

/-- Index of the last element satisfying the predicate. -/
def lastIdxP (p : Char → Bool) : List Char → Option Nat
  | [] => none
  | c :: rest =>
    match lastIdxP p rest with
    | some j => some (j + 1)
    | none => if p c then some 0 else none

/-- Match `\d[\d\s\-]{7,}\d` at the head: a digit, then a maximal class
run, backtracking so that the final consumed character is the last digit
of the run at index at least 7 (greedy preference = largest such index). -/
def phoneCore (cs : List Char) : Option Nat :=
  match cs with
  | [] => none
  | c :: rest =>
    if c.isDigit then
      let run := rest.takeWhile isPhoneClass
      match lastIdxP Char.isDigit run with
      | some j => if 7 ≤ j then some (j + 2) else none
      | none => none
    else none

/-- Length of the `_PHONE_PATTERN` match `(?:\+?\d[\d\s\-]{7,}\d)`
starting here, if any (a leading `+` must be followed by the core, since
without it the `+` cannot match `\d`). -/
def phoneMatchLen (cs : List Char) : Option Nat :=
  match cs with
  | '+' :: rest => (phoneCore rest).map (· + 1)
  | _ => phoneCore cs

/-- `_PHONE_PATTERN.findall`: leftmost non-overlapping matches (fuel as
in `bankScanGo`). -/
def phoneScanGo (fuel : Nat) (cs : List Char) : List String :=
  match fuel, cs with
  | 0, _ => []
  | _, [] => []
  | Nat.succ f, c :: rest =>
    match phoneMatchLen (c :: rest) with
    | some len => String.mk ((c :: rest).take len) :: phoneScanGo f (rest.drop (len - 1))
    | none => phoneScanGo f rest

/-- `_PHONE_PATTERN.findall` over a whole text. -/
def phoneScan (cs : List Char) : List String :=
  phoneScanGo (cs.length + 1) cs

/-- Case-insensitive comparison against a lower-case literal character. -/
def charLowEq (c d : Char) : Bool :=
  c.toLower == d

/-- Match `://` then `\S+` (greedy maximal run of non-whitespace, at
least one character) at the head. -/
def urlTail (cs : List Char) : Option Nat :=
  match cs with
  | ':' :: '/' :: '/' :: rest =>
    let run := rest.takeWhile (fun c => !isPySpace c)
    if run.length == 0 then none else some (3 + run.length)
  | _ => none

/-- Length of the `_URL_PATTERN` match `https?://\S+` (IGNORECASE)
starting here, if any: `s?` is greedy, and when the optional `s` is not
the actual character the empty alternative needs `:` there. -/
def urlMatchLen (cs : List Char) : Option Nat :=
  match cs with
  | c1 :: c2 :: c3 :: c4 :: rest =>
    if charLowEq c1 'h' && charLowEq c2 't' && charLowEq c3 't' && charLowEq c4 'p' then
      match rest with
      | c5 :: rest2 =>
        if charLowEq c5 's' then (urlTail rest2).map (fun n => 5 + n)
        else (urlTail rest).map (fun n => 4 + n)
      | [] => none
    else none
  | _ => none

/-- `_URL_PATTERN.findall`: leftmost non-overlapping matches (fuel as in
`bankScanGo`). -/
def urlScanGo (fuel : Nat) (cs : List Char) : List String :=
  match fuel, cs with
  | 0, _ => []
  | _, [] => []
  | Nat.succ f, c :: rest =>
    match urlMatchLen (c :: rest) with
    | some len => String.mk ((c :: rest).take len) :: urlScanGo f (rest.drop (len - 1))
    | none => urlScanGo f rest

/-- `_URL_PATTERN.findall` over a whole text. -/
def urlScan (cs : List Char) : List String :=
  urlScanGo (cs.length + 1) cs

/-- Character class `[a-z0-9.\-_]` of `_UPI_PATTERN` under IGNORECASE. -/
def isUpiLocal (c : Char) : Bool :=
  c.isAlpha || c.isDigit || c == '.' || c == '-' || c == '_'

/-- Length of the `_UPI_PATTERN` match `\b[a-z0-9.\-_]{2,}@[a-z]{2,}\b`
(IGNORECASE) starting here, if any.  Both runs are maximal: `@` is not in
the local class, and shrinking the domain letter run cannot restore the
trailing word boundary since letters are word characters. -/
def upiMatchLen (prev : Option Char) (cs : List Char) : Option Nat :=
  if boundaryB prev cs.head? then
    let run1 := cs.takeWhile isUpiLocal
    if run1.length < 2 then none
    else
      match cs.drop run1.length with
      | '@' :: rest2 =>
        let run2 := rest2.takeWhile Char.isAlpha
        if run2.length < 2 then none
        else if boundaryB run2.getLast? (rest2.drop run2.length).head? then
          some (run1.length + 1 + run2.length)
        else none
      | _ => none
  else none

/-- `_UPI_PATTERN.findall`: leftmost non-overlapping matches (fuel as in
`bankScanGo`). -/
def upiScanGo (fuel : Nat) (prev : Option Char) (cs : List Char) : List String :=
  match fuel, cs with
  | 0, _ => []
  | _, [] => []
  | Nat.succ f, c :: rest =>
    match upiMatchLen prev (c :: rest) with
    | some len =>
      String.mk ((c :: rest).take len) ::
        upiScanGo f ((c :: rest).get? (len - 1)) (rest.drop (len - 1))
    | none => upiScanGo f (some c) rest

/-- `_UPI_PATTERN.findall` over a whole text. -/
def upiScan (prev : Option Char) (cs : List Char) : List String :=
  upiScanGo (cs.length + 1) prev cs

/-! ## Intelligence extractor (extract.py) -/

/-- `_SUSPICIOUS_KEYWORDS` of extract.py (a Python set literal; the
iteration order is irrelevant because the output is sorted). -/
def SUSPICIOUS_KEYWORDS : List String :=
  ["urgent", "verify", "verification", "account", "blocked", "suspended",
   "kyc", "otp", "payment", "transfer", "upi", "gift card", "bitcoin",
   "crypto", "wire", "bank", "police", "court"]

/-- Python `str.rstrip(").,;!")`. -/
def rstripPunct (cs : List Char) : List Char :=
  (cs.reverse.dropWhile
    (fun c => c == ')' || c == '.' || c == ',' || c == ';' || c == '!')).reverse

/-- `extract_intelligence` from extract.py: pattern matching over the raw
text, normalisation (digits only for accounts and phones, lower-casing
for handles and links, trailing punctuation stripped from links), the
phone-over-bank disambiguation rule, and sorted deduplicated output. -/
def extract_intelligence (text : String) : ExtractionResult :=
  let cs := text.data
  let bankRaw := (bankScan none cs).map (fun s => String.mk (s.data.filter Char.isDigit))
  let upiRaw := (upiScan none cs).map toLowerStr
  let linkRaw := (urlScan cs).map (fun s => String.mk (rstripPunct (toLowerStr s).data))
  let phoneRaw := (phoneScan cs).map (fun s => String.mk (s.data.filter Char.isDigit))
  let bankKept := bankRaw.filter (fun a => !(phoneRaw.contains a) && a.length != 10)
  let lowered := toLowerStr text
  let keywords := SUSPICIOUS_KEYWORDS.filter (fun k => containsSub lowered k)
  { bankAccounts := sortStr bankKept
    upiIds := sortStr upiRaw
    phishingLinks := sortStr linkRaw
    phoneNumbers := sortStr phoneRaw
    suspiciousKeywords := sortStr keywords }

/-! ## Scam detector (detector.py; config.py holds an identical copy and
is the one imported by main.py) -/

/-- `_SCAM_KEYWORDS` phrase/weight lexicon, in source order; the float
weights are embedded as exact rationals. -/
def SCAM_KEYWORDS : List (String × ℚ) :=
  [("urgent", 22/100), ("immediately", 15/100), ("verify", 18/100),
   ("verification", 12/100), ("account blocked", 22/100), ("account", 8/100),
   ("suspended", 16/100), ("blocked", 16/100), ("kyc", 18/100),
   ("otp", 20/100), ("password", 12/100), ("bank", 8/100),
   ("fraud prevention team", 22/100), ("customer care", 18/100),
   ("police", 20/100), ("court", 20/100), ("fine", 15/100),
   ("penalty", 12/100), ("payment", 8/100), ("transfer", 10/100),
   ("upi", 18/100), ("gift card", 18/100), ("bitcoin", 20/100),
   ("crypto", 15/100), ("wire", 10/100)]

/-- `_URL_PATTERN.search` existence: the leftmost scan finds a match
somewhere iff findall is non-empty. -/
def urlSearchB (s : String) : Bool :=
  !(urlScan s.data).isEmpty

/-- `_PHONE_PATTERN.search` existence. -/
def phoneSearchB (s : String) : Bool :=
  !(phoneScan s.data).isEmpty

/-- `detect_scam_intent` from detector.py (identical copy in config.py):
lower-case the text, add the weight of every lexicon phrase that occurs
as a substring, add 0.2 for a URL match and 0.1 for a phone match, clamp
the total to 1.0, and return the indicators sorted and deduplicated. -/
def detect_scam_intent (text : String) : DetectorResult :=
  let normalized := toLowerStr text
  let hits := SCAM_KEYWORDS.filter (fun kw => containsSub normalized kw.1)
  let indicators0 := hits.map Prod.fst
  let score0 : ℚ := (hits.map Prod.snd).sum
  let indicators1 := if urlSearchB normalized then indicators0 ++ ["url"] else indicators0
  let score1 := if urlSearchB normalized then score0 + 20/100 else score0
  let indicators2 := if phoneSearchB normalized then indicators1 ++ ["phone"] else indicators1
  let score2 := if phoneSearchB normalized then score1 + 10/100 else score1
  { score := min score2 1, indicators := sortStr indicators2 }

/-! ## Strategy selector and reply composer (agent.py)

The OpenAI calls are modelled as oracle parameters: `gSel` is the value of
the `strategy` field parsed from the advisory response when that field is
a string (absence, transport failure, malformed JSON and a non-string
field all collapse to `none`); `g1`, `g2`, `g3` are the raw reply strings
of the three possible `_llm_generate_reply` call sites in order (first
attempt, safety retry, anti-repetition retry), `none` standing for every
failure mode.  `h` stands for the stdlib digest
`int(hashlib.sha256(seed).hexdigest(), 16)`, an arbitrary fixed function
of the seed string. -/

/-- `STRATEGIES`: the fixed closed enumeration. -/
def STRATEGIES : List String :=
  ["ASK_EMPLOYEE_ID_BRANCH", "ASK_OFFICIAL_LINK_TICKET",
   "CALL_BACK_CONFIRM_NUMBER", "UPI_COLLECT_REQUEST_CHECK",
   "TECHNICAL_STALL_APP_ISSUE", "TECHNICAL_STALL_PIN_ISSUE"]

/-- `_SLOT_STRATEGY` mapping (dict `.get`). -/
def slotStrategy (slot : String) : Option String :=
  if slot == "upi" then some "UPI_COLLECT_REQUEST_CHECK"
  else if slot == "phone" then some "CALL_BACK_CONFIRM_NUMBER"
  else if slot == "phishing" then some "ASK_OFFICIAL_LINK_TICKET"
  else if slot == "bank" then some "ASK_EMPLOYEE_ID_BRANCH"
  else if slot == "suspicious" then some "ASK_OFFICIAL_LINK_TICKET"
  else none

/-- `_STRATEGY_TEMPLATES` bank, with the dict-lookup default of
`_pick_from_templates`. -/
def strategyTemplates (strategy : String) : List String :=
  if strategy == "ASK_EMPLOYEE_ID_BRANCH" then
    ["Sorry, who is this exactly? What\x27s your name and employee ID?",
     "Which team/branch is this from? Please share your name and ID.",
     "Can you share your name and employee ID so I can verify?",
     "Which branch are you calling from? Name and ID please."]
  else if strategy == "ASK_OFFICIAL_LINK_TICKET" then
    ["Do you have an official link or reference/ticket number?",
     "Can you share a ticket number or an official link I can check?",
     "Is there any official reference ID for this case?",
     "Please send the official link or case reference number."]
  else if strategy == "CALL_BACK_CONFIRM_NUMBER" then
    ["What\x27s the official helpline number? I want to call back and verify.",
     "Can I call the official helpline? Share the number please.",
     "Please give the official customer care number. I\x27ll call back.",
     "Which number should I call to verify this officially?"]
  else if strategy == "UPI_COLLECT_REQUEST_CHECK" then
    ["If it\x27s a collect request, what\x27s the UPI handle it\x27s coming from?",
     "Which UPI handle is raising the request? I want to verify in the app.",
     "Please share the UPI handle so I can check the collect request.",
     "What UPI ID is the request from? I can verify on my app."]
  else if strategy == "TECHNICAL_STALL_APP_ISSUE" then
    ["My app is acting up. Can you share details and call back in a bit?",
     "I\x27m in a meeting—can you send the details and call later?",
     "My phone is restarting. Can you wait a few minutes?",
     "Network is bad right now. Can you share the official link/ticket?"]
  else if strategy == "TECHNICAL_STALL_PIN_ISSUE" then
    ["Sir, I\x27m a bit confused. The app is asking for my PIN but it\x27s not working—what should I do? Also what\x27s the official helpline number or reference ID?",
     "I\x27m confused—my app keeps asking for my PIN and then errors out. Can you tell me the steps? Also share an official link or ticket number.",
     "My banking app is stuck on the PIN screen and won\x27t proceed. What are the steps to fix it? What\x27s your official helpline number?",
     "The app is asking for my PIN but it\x27s failing. Can you guide me what to do next? Please share the official reference ID."]
  else ["I need a moment to check."]

/-- `_BANNED_PATTERNS` from agent.py. -/
def BANNED_PATTERNS : List String :=
  ["share otp", "send otp", "tell me otp", "otp here", "one time password",
   "one-time password", "password", "cvv", "account number", "debit card",
   "credit card", "netbanking password"]

/-- `_SECRET_ASK_PATTERNS` from agent.py. -/
def SECRET_ASK_PATTERNS : List String :=
  ["share your pin", "tell me your pin", "send your pin", "what is your pin",
   "enter your pin here", "share your otp", "tell me the otp",
   "send otp here", "share your account number"]

/-- `_contains_banned` from agent.py. -/
def contains_banned (text : String) : Bool :=
  BANNED_PATTERNS.any (fun p => containsSub (toLowerStr text) p)

/-- `_asks_for_secret` from agent.py. -/
def asks_for_secret (text : String) : Bool :=
  SECRET_ASK_PATTERNS.any (fun p => containsSub (toLowerStr text) p)

/-- `_asks_for_details` from agent.py: a question mark together with one
of the verification-related keywords. -/
def asks_for_details (text : String) : Bool :=
  containsSub (toLowerStr text) "?" &&
  ["employee", "department", "branch", "official", "link", "ticket",
   "reference", "helpline", "number", "upi", "handle"].any
    (fun k => containsSub (toLowerStr text) k)

/-- `_pick_from_templates` from agent.py, with the sha256 digest as the
function parameter `h`: hash the seed `sessionId:totalTurns:strategy`
into the template count, and advance (wrapping) when the choice equals
the stored last reply. -/
def pick_from_templates (h : String → Nat) (strategy : String) (state : SessionState) : String :=
  let options := strategyTemplates strategy
  let seed := state.sessionId ++ ":" ++ toString state.totalMessagesExchanged ++ ":" ++ strategy
  let index := h seed % options.length
  let reply := options.getD index ""
  if state.lastReply == some reply then options.getD ((index + 1) % options.length) ""
  else reply

/-- First slot of `missingSlots` with a mapped strategy (the loop in
`_pick_deterministic_strategy`). -/
def firstSlotStrategy : List String → Option String
  | [] => none
  | slot :: rest =>
    match slotStrategy slot with
    | some s => some s
    | none => firstSlotStrategy rest

/-- `_pick_deterministic_strategy` from agent.py. -/
def pick_deterministic_strategy (state : SessionState) (scammer_text : String) : String :=
  let t := toLowerStr scammer_text
  if ["otp", "pin", "password", "passcode"].any (fun k => containsSub t k) then
    "TECHNICAL_STALL_PIN_ISSUE"
  else if ["upi", "collect", "request"].any (fun k => containsSub t k) then
    "UPI_COLLECT_REQUEST_CHECK"
  else
    match firstSlotStrategy state.missingSlots with
    | some s => s
    | none =>
      STRATEGIES.get ⟨state.totalMessagesExchanged % STRATEGIES.length,
        Nat.mod_lt _ (by decide)⟩

/-- Enumeration-membership gate at the end of `_llm_select_strategy`
(agent.py lines 218-224): the advisory answer is accepted only when it is
literally one of `STRATEGIES`; every other outcome is `none`. -/
def llm_select_strategy (oracleStrategy : Option String) : Option String :=
  match oracleStrategy with
  | none => none
  | some s => if s ∈ STRATEGIES then some s else none

/-- Python `x or y` on an optional string (`None` and `""` are falsy). -/
def pyOrStr (x : Option String) (y : String) : String :=
  match x with
  | none => y
  | some s => if s == "" then y else s

/-- Strategy choice of `build_agent_reply` (lines 331-333): advisory
first, deterministic fallback on any falsy answer. -/
def chooseStrategy (gSel : Option String) (state : SessionState) (scammer_text : String) : String :=
  match llm_select_strategy gSel with
  | none => pick_deterministic_strategy state scammer_text
  | some s => if s == "" then pick_deterministic_strategy state scammer_text else s

/-- The hard-coded safe sentence of the final guardrail in
`build_agent_reply`. -/
def FIXED_SAFE_REPLY : String :=
  "Sorry, I can\x27t share any codes. Can you send the official link or reference number?"

/-- Stages 1-6 of `build_agent_reply` (everything before the final
guardrail): generation attempt with template fallback, sentence clamp,
safety filter with regenerate-or-reroute, clamp, anti-repetition with the
next strategy in enumeration order, clamp, and the must-probe check.
Returns (strategy, candidate text entering the final guardrail).  The
`history` argument is only ever fed to the oracle calls. -/
def composeCandidate (h : String → Nat) (state : SessionState) (scammer_text : String)
    (history : List PyMessage) (gSel g1 g2 g3 : Option String) : String × String :=
  let strategy := chooseStrategy gSel state scammer_text
  let reply0 := pyOrStr g1 (pick_from_templates h strategy state)
  let reply1 := limit_sentences reply0 2
  let reply2 :=
    if asks_for_secret reply1 || contains_banned reply1 then
      pyOrStr g2 (pick_from_templates h "ASK_OFFICIAL_LINK_TICKET" state)
    else reply1
  let reply3 := limit_sentences reply2 2
  let reply4 :=
    if normalize_text reply3 == normalize_text (state.lastReply.getD "") then
      let alt := STRATEGIES.get ⟨(STRATEGIES.indexOf strategy + 1) % STRATEGIES.length,
        Nat.mod_lt _ (by decide)⟩
      pyOrStr g3 (pick_from_templates h alt state)
    else reply3
  let reply5 := limit_sentences reply4 2
  let reply6 :=
    if asks_for_details reply5 then reply5
    else pick_from_templates h "ASK_OFFICIAL_LINK_TICKET" state
  (strategy, reply6)

/-- Final guardrail of `build_agent_reply` (agent.py lines 391-392): a
candidate that still asks for a secret or contains a banned term is
replaced by the one fixed hard-coded safe sentence. -/
def finalGuard (cand : String) : String :=
  if asks_for_secret cand || contains_banned cand then FIXED_SAFE_REPLY else cand

/-- `build_agent_reply` from agent.py: the staged pipeline followed by the
final guardrail. -/
def build_agent_reply (h : String → Nat) (state : SessionState) (scammer_text : String)
    (history : List PyMessage) (gSel g1 g2 g3 : Option String) : AgentReply :=
  { reply := finalGuard (composeCandidate h state scammer_text history gSel g1 g2 g3).2
    agentNotes := "Strategy: " ++
      (composeCandidate h state scammer_text history gSel g1 g2 g3).1 ++
      ". Goal: keep scammer engaged and extract verification details (link/ticket, helpline, UPI handle, ID)."
    shouldTerminate := state.terminated }

/-! ## Callback dispatcher payload (callback.py)

The POST itself is external; its outcome is the oracle `callbackOk` and
only ever reaches a log line. -/

/-- `FinalCallbackPayload` of models.py. -/
structure FinalCallbackPayload where
  sessionId : String
  scamDetected : Bool
  totalMessagesExchanged : Nat
  extractedIntelligence : Intelligence
  agentNotes : String
deriving DecidableEq, Repr

/-- `_build_agent_notes` from callback.py: synthesized summary listing
which intelligence categories are populated. -/
def build_agent_notes (state : SessionState) : String :=
  let details :=
    (if !state.extractedIntelligence.phishingLinks.isEmpty then ["Phishing link provided"] else []) ++
    (if !state.extractedIntelligence.upiIds.isEmpty ||
        !state.extractedIntelligence.bankAccounts.isEmpty then ["Payment details requested"] else []) ++
    (if !state.extractedIntelligence.phoneNumbers.isEmpty then ["Phone number shared"] else []) ++
    (if !state.extractedIntelligence.suspiciousKeywords.isEmpty then ["Suspicious language used"] else [])
  let details := if details.isEmpty then ["Scammer engaged with pressure tactics"] else details
  String.intercalate "; " details

/-- The payload built by `send_final_callback` in callback.py (the notes
fall back to the synthesized summary when empty). -/
def final_callback_payload (state : SessionState) : FinalCallbackPayload :=
  { sessionId := state.sessionId
    scamDetected := state.scamConfirmed
    totalMessagesExchanged := state.totalMessagesExchanged
    extractedIntelligence := state.extractedIntelligence
    agentNotes := if state.agentNotes == "" then build_agent_notes state else state.agentNotes }

/-! ## Turn handler (main.py, valid-request path of handle_message) -/

/-- Python `incoming.conversationHistory or []`. -/
def histOr (incoming : IncomingRequest) : List PyMessage :=
  incoming.conversationHistory.getD []

/-- The scammer-attributed updates of handle_message (main.py lines
212-250): detector fold into the running maximum, confirmation by
threshold or trigger keyword, extraction merge, missing-slot recompute,
and the stall counter. -/
def scammerUpdate (settings : Settings) (st0 : SessionState) (text : String) : SessionState :=
  let detector := detect_scam_intent text
  let st1 := { st0 with scamScore := max st0.scamScore detector.score }
  let st2 :=
    if st1.scamScore ≥ settings.scam_threshold then
      { st1 with scamConfirmed := true, agentActive := true }
    else if ["otp", "upi", "blocked", "verify", "kyc"].any
        (fun k => containsSub (toLowerStr text) k) then
      { st1 with scamConfirmed := true, agentActive := true }
    else st1
  let extraction := extract_intelligence text
  let st3 := { st2 with
    extractedIntelligence := merge_extraction st2.extractedIntelligence extraction }
  let missing :=
    (if st3.extractedIntelligence.upiIds.isEmpty then ["upi"] else []) ++
    (if st3.extractedIntelligence.phoneNumbers.isEmpty then ["phone"] else []) ++
    (if st3.extractedIntelligence.phishingLinks.isEmpty then ["phishing"] else []) ++
    (if st3.extractedIntelligence.bankAccounts.isEmpty then ["bank"] else []) ++
    (if st3.extractedIntelligence.suspiciousKeywords.isEmpty then ["suspicious"] else [])
  let st4 := { st3 with missingSlots := missing }
  let normalized := toLowerStr (pyStrip text)
  if (match st4.lastScammerMessage with
      | some m => !(m == "") && normalized == m
      | none => false) then
    { st4 with turnsSinceChange := st4.turnsSinceChange + 1 }
  else
    { st4 with turnsSinceChange := 0, lastScammerMessage := some normalized }

/-- Result of one valid-path turn: the saved state, the reply returned in
the success envelope, and whether `send_final_callback` was invoked. -/
structure TurnResult where
  state : SessionState
  reply : String
  dispatched : Bool
deriving Repr

/-- State entering reply composition: counter increment (main.py line
210), then the scammer-attributed updates when the sender is the
counterpart. -/
def preReplyState (settings : Settings) (pre : SessionState) (incoming : IncomingRequest) :
    SessionState :=
  let s1 := { pre with totalMessagesExchanged := pre.totalMessagesExchanged + 1 }
  if incoming.message.sender == "scammer" then
    scammerUpdate settings s1 incoming.message.text
  else s1

/-- Reply composition block (main.py lines 252-264): the agent pipeline
when active (which also records the agent notes), the fixed challenge
sentence otherwise.  Returns (candidate reply, state). -/
def composeReply (settings : Settings) (pre : SessionState) (incoming : IncomingRequest)
    (h : String → Nat) (gSel g1 g2 g3 : Option String) : String × SessionState :=
  let s2 := preReplyState settings pre incoming
  if s2.agentActive then
    let ar := build_agent_reply h s2 incoming.message.text
      (histOr incoming ++ [incoming.message]) gSel g1 g2 g3
    (ar.reply, { s2 with agentNotes := ar.agentNotes })
  else ("Sorry, who is this?", s2)

/-- Duplicate-reply fallback chain (main.py lines 266-270). -/
def dedupReply (reply0 : String) (lastReply : Option String) : String :=
  if some reply0 == lastReply then
    if some "I need a moment to check." == lastReply then
      "Sorry, I still don\x27t understand."
    else "I need a moment to check."
  else reply0

/-- Termination logic (main.py lines 274-288). -/
def terminationStep (settings : Settings) (incoming : IncomingRequest)
    (s4 : SessionState) : SessionState :=
  if s4.scamConfirmed then
    let scammer_turns := (histOr incoming).length + 1
    let has_intel :=
      !s4.extractedIntelligence.bankAccounts.isEmpty ||
      !s4.extractedIntelligence.upiIds.isEmpty ||
      !s4.extractedIntelligence.phishingLinks.isEmpty ||
      !s4.extractedIntelligence.phoneNumbers.isEmpty
    let t1 := if has_intel && decide (1 ≤ s4.turnsSinceChange) then true else s4.terminated
    let t2 := if decide (2 ≤ s4.turnsSinceChange) then true else t1
    let t3 := if decide (scammer_turns ≥ settings.max_turns) then true else t2
    { s4 with terminated := t3 }
  else s4

/-- Guarded one-shot callback dispatch (main.py lines 290-295): the
attempt happens iff terminated, scam-confirmed and not yet sent, and the
flag is set immediately after the attempt regardless of its outcome. -/
def dispatchStep (s5 : SessionState) : SessionState × Bool :=
  let dispatched := s5.terminated && s5.scamConfirmed && !s5.finalCallbackSent
  (if dispatched then { s5 with finalCallbackSent := true } else s5, dispatched)

/-- Valid-request path of `handle_message` (main.py lines 196-298), from
the loaded-or-created session state onward: counter increment, scammer
updates, reply composition, duplicate-reply fallback chain, termination
logic, and the guarded one-shot callback dispatch.  `callbackOk` is the
oracle outcome of the external POST to `send_final_callback`; it is only
logged, so it does not influence the result. -/
def processTurn (settings : Settings) (pre : SessionState) (incoming : IncomingRequest)
    (h : String → Nat) (gSel g1 g2 g3 : Option String) (callbackOk : Bool) : TurnResult :=
  let rs := composeReply settings pre incoming h gSel g1 g2 g3
  let reply_text := dedupReply rs.1 rs.2.lastReply
  let s4 := { rs.2 with lastReply := some reply_text }
  let s5 := terminationStep settings incoming s4
  let d := dispatchStep s5
  { state := d.1, reply := reply_text, dispatched := d.2 }

/-! ## Transport body guard (main.py middleware tester_body_guard)

The stdlib `json.loads` is external: its outcome is modelled by `RawBody`
(absent or blank body, a parse failure, or the parsed JSON value). -/

/-- A parsed JSON value.  An object stands for the dict produced by
`json.loads` (duplicate keys already collapsed to the last one). -/
inductive JValue where
  | null
  | bool (b : Bool)
  | num (q : ℚ)
  | str (s : String)
  | arr (elems : List JValue)
  | obj (fields : List (String × JValue))

/-- Outcome of reading the request body before JSON inspection. -/
inductive RawBody where
  | blank
  | badJson
  | json (v : JValue)

/-- A response decided by the guard, or a hand-off to the endpoint. -/
inductive GuardOutcome where
  | errorResp (statusCode : Nat) (status message : String)
  | successResp (status reply : String)
  | passThrough
deriving DecidableEq, Repr

/-- Python `dict.get` on a JSON object (absent or non-object gives None). -/
def objGet : JValue → String → Option JValue
  | .obj fields, key => (fields.find? (fun f => f.1 == key)).map Prod.snd
  | _, _ => none

/-- The `message.text` extraction of the guard: the text only when
`message` is a dict and its `text` field is a string. -/
def guardMessageText (v : JValue) : Option String :=
  match objGet v "message" with
  | some (JValue.obj fields) =>
    match objGet (JValue.obj fields) "text" with
    | some (JValue.str s) => some s
    | _ => none
  | _ => none

/-- `tester_body_guard` from main.py, for a POST to /message: a 500 error
envelope before startup, a 401 error envelope on missing or incorrect
x-api-key, the fixed neutral success envelope on every malformed body,
and a hand-off to the endpoint otherwise. -/
def tester_body_guard (settingsOpt : Option Settings) (apiKey : Option String)
    (body : RawBody) : GuardOutcome :=
  match settingsOpt with
  | none => .errorResp 500 "error" "Server not initialized"
  | some settings =>
    let keyOk :=
      match apiKey with
      | none => false
      | some k => !(k == "") && k == settings.api_key
    if !keyOk then .errorResp 401 "error" "Invalid API key or malformed request"
    else
      match body with
      | .blank => .successResp "success" "Hello"
      | .badJson => .successResp "success" "Hello"
      | .json v =>
        match v with
        | JValue.obj fields =>
          match guardMessageText (JValue.obj fields) with
          | some t => if pyStrip t == "" then .successResp "success" "Hello" else .passThrough
          | none => .successResp "success" "Hello"
        | _ => .successResp "success" "Hello"

/-- Strictly-sorted (hence deduplicated) in the code-point order. -/
def SSorted (l : List String) : Prop :=
  List.Pairwise (fun a b => lexLt a.data b.data = true) l

/-! ## Concrete sample inputs for witnesses and counterexamples -/

/-- `SessionStore.initialize` from store.py: the fresh session created on
the first request for an unseen identifier. -/
def initializeSession (session_id : String) : SessionState :=
  { sessionId := session_id, scamScore := 0, scamConfirmed := false, agentActive := false,
    totalMessagesExchanged := 0, lastReply := none, turnsSinceChange := 0,
    terminated := false, finalCallbackSent := false,
    extractedIntelligence :=
      { bankAccounts := [], upiIds := [], phishingLinks := [],
        phoneNumbers := [], suspiciousKeywords := [] },
    lastScammerMessage := none, agentNotes := "",
    missingSlots := ["upi", "phone", "phishing", "bank", "suspicious"],
    recentScammer := [], recentHoneypot := [] }

/-- Sample configuration (scam threshold 0.5 as the default, a small
maximum-turn budget to exercise the termination rules). -/
def sampleSettings : Settings :=
  { api_key := "secret", scam_threshold := 1/2, max_turns := 2,
    callback_url := "http://cb.example/hook", http_timeout_seconds := 5,
    persona_name := "Sam", openai_api_key := "", openai_model := "gpt-4o-mini" }

/-- Sample configuration with a one-turn budget. -/
def sampleSettings1 : Settings :=
  { sampleSettings with max_turns := 1 }

/-- A scammer message carrying no intelligence and no trigger keyword. -/
def helloReq : IncomingRequest :=
  { sessionId := "s",
    message := { sender := "scammer", text := "hello", timestamp := "t" },
    conversationHistory := none }

/-- A confirmed-scam session about to take its second turn. -/
def confirmedState : SessionState :=
  { initializeSession "s" with
    scamConfirmed := true, agentActive := true, totalMessagesExchanged := 1 }

/-- A non-scammer probe message (light path through the handler). -/
def userReq : IncomingRequest :=
  { sessionId := "s",
    message := { sender := "user", text := "hi", timestamp := "t" },
    conversationHistory := none }

/-- An already-terminated session. -/
def terminatedState : SessionState :=
  { initializeSession "s" with terminated := true }

/-- Is a guard outcome the success envelope shape? -/
def isSuccessEnvelope : GuardOutcome → Bool
  | GuardOutcome.successResp s _ => s == "success"
  | _ => false

/-- The body shapes the guard treats as malformed: absent or blank body,
unparsable JSON, a non-object value, a missing or non-dict message block,
and a missing, non-string or blank text field. -/
def malformedBody : RawBody → Bool
  | RawBody.blank => true
  | RawBody.badJson => true
  | RawBody.json v =>
    match v with
    | JValue.obj fields =>
      match guardMessageText (JValue.obj fields) with
      | some t => pyStrip t == ""
      | none => true
    | _ => true

/-! ## Helper lemmas: stage-wise preservation facts -/

theorem scammerUpdate_terminated (settings : Settings) (st : SessionState) (text : String) :
    (scammerUpdate settings st text).terminated = st.terminated := by
  unfold scammerUpdate
  dsimp only
  split_ifs <;> rfl

theorem scammerUpdate_finalCallbackSent (settings : Settings) (st : SessionState)
    (text : String) :
    (scammerUpdate settings st text).finalCallbackSent = st.finalCallbackSent := by
  unfold scammerUpdate
  dsimp only
  split_ifs <;> rfl

theorem scammerUpdate_lastReply (settings : Settings) (st : SessionState) (text : String) :
    (scammerUpdate settings st text).lastReply = st.lastReply := by
  unfold scammerUpdate
  dsimp only
  split_ifs <;> rfl

theorem scammerUpdate_scamConfirmed_mono (settings : Settings) (st : SessionState)
    (text : String) (hc : st.scamConfirmed = true) :
    (scammerUpdate settings st text).scamConfirmed = true := by
  unfold scammerUpdate
  dsimp only
  split_ifs <;> simp [hc]

theorem preReplyState_terminated (settings : Settings) (pre : SessionState)
    (incoming : IncomingRequest) :
    (preReplyState settings pre incoming).terminated = pre.terminated := by
  unfold preReplyState
  dsimp only
  split_ifs
  · rw [scammerUpdate_terminated]
  · rfl

theorem preReplyState_finalCallbackSent (settings : Settings) (pre : SessionState)
    (incoming : IncomingRequest) :
    (preReplyState settings pre incoming).finalCallbackSent = pre.finalCallbackSent := by
  unfold preReplyState
  dsimp only
  split_ifs
  · rw [scammerUpdate_finalCallbackSent]
  · rfl

theorem preReplyState_lastReply (settings : Settings) (pre : SessionState)
    (incoming : IncomingRequest) :
    (preReplyState settings pre incoming).lastReply = pre.lastReply := by
  unfold preReplyState
  dsimp only
  split_ifs
  · rw [scammerUpdate_lastReply]
  · rfl

theorem preReplyState_scamConfirmed_mono (settings : Settings) (pre : SessionState)
    (incoming : IncomingRequest) (hc : pre.scamConfirmed = true) :
    (preReplyState settings pre incoming).scamConfirmed = true := by
  unfold preReplyState
  dsimp only
  split_ifs
  · exact scammerUpdate_scamConfirmed_mono _ _ _ hc
  · exact hc

theorem composeReply_state_terminated (settings : Settings) (pre : SessionState)
    (incoming : IncomingRequest) (h : String → Nat) (gSel g1 g2 g3 : Option String) :
    (composeReply settings pre incoming h gSel g1 g2 g3).2.terminated = pre.terminated := by
  unfold composeReply
  dsimp only
  split_ifs <;> exact preReplyState_terminated ..

theorem composeReply_state_finalCallbackSent (settings : Settings) (pre : SessionState)
    (incoming : IncomingRequest) (h : String → Nat) (gSel g1 g2 g3 : Option String) :
    (composeReply settings pre incoming h gSel g1 g2 g3).2.finalCallbackSent =
      pre.finalCallbackSent := by
  unfold composeReply
  dsimp only
  split_ifs <;> exact preReplyState_finalCallbackSent ..

theorem composeReply_state_lastReply (settings : Settings) (pre : SessionState)
    (incoming : IncomingRequest) (h : String → Nat) (gSel g1 g2 g3 : Option String) :
    (composeReply settings pre incoming h gSel g1 g2 g3).2.lastReply = pre.lastReply := by
  unfold composeReply
  dsimp only
  split_ifs <;> exact preReplyState_lastReply ..

theorem composeReply_state_scamConfirmed_mono (settings : Settings) (pre : SessionState)
    (incoming : IncomingRequest) (h : String → Nat) (gSel g1 g2 g3 : Option String)
    (hc : pre.scamConfirmed = true) :
    (composeReply settings pre incoming h gSel g1 g2 g3).2.scamConfirmed = true := by
  unfold composeReply
  dsimp only
  split_ifs <;> exact preReplyState_scamConfirmed_mono _ _ _ hc

theorem terminationStep_scamConfirmed (settings : Settings) (incoming : IncomingRequest)
    (s4 : SessionState) :
    (terminationStep settings incoming s4).scamConfirmed = s4.scamConfirmed := by
  unfold terminationStep
  dsimp only
  split_ifs <;> rfl

theorem terminationStep_finalCallbackSent (settings : Settings) (incoming : IncomingRequest)
    (s4 : SessionState) :
    (terminationStep settings incoming s4).finalCallbackSent = s4.finalCallbackSent := by
  unfold terminationStep
  dsimp only
  split_ifs <;> rfl

theorem terminationStep_lastReply (settings : Settings) (incoming : IncomingRequest)
    (s4 : SessionState) :
    (terminationStep settings incoming s4).lastReply = s4.lastReply := by
  unfold terminationStep
  dsimp only
  split_ifs <;> rfl

theorem terminationStep_terminated_mono (settings : Settings) (incoming : IncomingRequest)
    (s4 : SessionState) (ht : s4.terminated = true) :
    (terminationStep settings incoming s4).terminated = true := by
  unfold terminationStep
  dsimp only
  split_ifs <;> simp_all

theorem terminationStep_maxTurns (settings : Settings) (incoming : IncomingRequest)
    (s4 : SessionState) (hc : s4.scamConfirmed = true)
    (hm : (histOr incoming).length + 1 ≥ settings.max_turns) :
    (terminationStep settings incoming s4).terminated = true := by
  unfold terminationStep
  dsimp only
  split_ifs <;> simp_all

theorem dispatchStep_dispatched (s5 : SessionState) :
    (dispatchStep s5).2 = (s5.terminated && s5.scamConfirmed && !s5.finalCallbackSent) := rfl

theorem dispatchStep_state_terminated (s5 : SessionState) :
    (dispatchStep s5).1.terminated = s5.terminated := by
  unfold dispatchStep
  dsimp only
  split_ifs <;> rfl

theorem dispatchStep_state_scamConfirmed (s5 : SessionState) :
    (dispatchStep s5).1.scamConfirmed = s5.scamConfirmed := by
  unfold dispatchStep
  dsimp only
  split_ifs <;> rfl

theorem dispatchStep_state_lastReply (s5 : SessionState) :
    (dispatchStep s5).1.lastReply = s5.lastReply := by
  unfold dispatchStep
  dsimp only
  split_ifs <;> rfl

theorem dispatchStep_state_finalCallbackSent (s5 : SessionState) :
    (dispatchStep s5).1.finalCallbackSent = (s5.finalCallbackSent || (dispatchStep s5).2) := by
  unfold dispatchStep
  dsimp only
  split_ifs with hd <;> simp_all

theorem dedupReply_ne (reply0 : String) (lastReply : Option String) :
    some (dedupReply reply0 lastReply) ≠ lastReply := by
  unfold dedupReply
  split_ifs with h1 h2
  · simp only [beq_iff_eq] at h2
    rw [← h2]
    decide
  · simp only [beq_iff_eq] at h2
    exact h2
  · simp only [beq_iff_eq] at h1
    exact h1

/-! ## Helper lemmas: the lexicographic order and the canonical sort -/

theorem lexLt_irrefl (cs : List Char) : lexLt cs cs = false := by
  induction cs with
  | nil => rfl
  | cons a as ih =>
    simp only [lexLt, ih, Bool.and_false, Bool.or_false]
    rw [Bool.eq_false_iff]
    intro hx
    exact lt_irrefl _ (Nat.blt_eq.mp hx)

theorem lexLt_trans (as bs cs : List Char) (h1 : lexLt as bs = true)
    (h2 : lexLt bs cs = true) : lexLt as cs = true := by
  induction as generalizing bs cs with
  | nil =>
    cases cs with
    | nil => cases bs <;> simp [lexLt] at h2
    | cons c cs2 => simp [lexLt]
  | cons a as ih =>
    cases bs with
    | nil => simp [lexLt] at h1
    | cons b bs2 =>
      cases cs with
      | nil => simp [lexLt] at h2
      | cons c cs2 =>
        simp only [lexLt, Bool.or_eq_true, Bool.and_eq_true, beq_iff_eq,
          Nat.blt_eq] at h1 h2 ⊢
        rcases h1 with h1 | ⟨hab, h1⟩ <;> rcases h2 with h2 | ⟨hbc, h2⟩
        · exact Or.inl (lt_trans h1 h2)
        · subst hbc; exact Or.inl h1
        · subst hab; exact Or.inl h2
        · subst hab; subst hbc; exact Or.inr ⟨rfl, ih _ _ h1 h2⟩

theorem charEq_of_toNat_eq {a b : Char} (h : a.toNat = b.toNat) : a = b :=
  Char.eq_of_val_eq (UInt32.toNat.inj h)

theorem lexLt_eq_of_not (as bs : List Char) (h1 : lexLt as bs = false)
    (h2 : lexLt bs as = false) : as = bs := by
  induction as generalizing bs with
  | nil =>
    cases bs with
    | nil => rfl
    | cons b bs2 => simp [lexLt] at h1
  | cons a as ih =>
    cases bs with
    | nil => simp [lexLt] at h2
    | cons b bs2 =>
      have hab : a.toNat = b.toNat := by
        by_contra hne
        rcases Nat.lt_or_ge a.toNat b.toNat with hlt | hge
        · simp [lexLt, Nat.blt_eq.mpr hlt] at h1
        · have hgt : b.toNat < a.toNat :=
            Nat.lt_of_le_of_ne hge (fun hx => hne hx.symm)
          simp [lexLt, Nat.blt_eq.mpr hgt] at h2
      have hab' : a = b := charEq_of_toNat_eq hab
      subst hab'
      simp only [lexLt, Bool.or_eq_false_iff, Bool.and_eq_false_iff,
        beq_self_eq_true, Bool.not_eq_true] at h1 h2
      rcases h1.2 with h1' | h1'
      · cases h1'
      · rcases h2.2 with h2' | h2'
        · cases h2'
        · rw [ih _ h1' h2']

theorem lexLt_asymm (as bs : List Char) (h : lexLt as bs = true) :
    lexLt bs as = false := by
  cases hv : lexLt bs as with
  | false => rfl
  | true =>
    have := lexLt_trans as bs as h hv
    rw [lexLt_irrefl] at this
    cases this

theorem strEq_of_data {x y : String} (h : x.data = y.data) : x = y := by
  cases x
  cases y
  exact congrArg String.mk h

theorem mem_insertStr (x a : String) (l : List String) :
    a ∈ insertStr x l ↔ a = x ∨ a ∈ l := by
  induction l with
  | nil => simp [insertStr]
  | cons y ys ih =>
    by_cases he : x = y
    · subst he
      simp only [insertStr, beq_self_eq_true, if_true, List.mem_cons]
      tauto
    · have he' : (x == y) = false := beq_eq_false_iff_ne.mpr he
      cases hlt : lexLt x.data y.data with
      | true =>
        simp only [insertStr, he', hlt, Bool.false_eq_true, if_false, if_true,
          List.mem_cons]
        try tauto
      | false =>
        simp only [insertStr, he', hlt, Bool.false_eq_true, if_false, List.mem_cons, ih]
        try tauto

theorem ssorted_insertStr (x : String) (l : List String) (hs : SSorted l) :
    SSorted (insertStr x l) := by
  induction l with
  | nil => simp [insertStr, SSorted]
  | cons y ys ih =>
    rcases List.pairwise_cons.mp hs with ⟨hy, hys⟩
    unfold insertStr
    split_ifs with he hlt
    · exact hs
    · refine List.pairwise_cons.mpr ⟨?_, hs⟩
      intro b hb
      rcases List.mem_cons.mp hb with hb | hb
      · subst hb; exact hlt
      · exact lexLt_trans _ _ _ hlt (hy b hb)
    · refine List.pairwise_cons.mpr ⟨?_, ih hys⟩
      intro b hb
      rcases (mem_insertStr x b ys).mp hb with hb | hb
      · subst hb
        cases hyx : lexLt y.data b.data with
        | true => rfl
        | false =>
          have : b.data = y.data := lexLt_eq_of_not _ _ (by simpa using hlt) hyx
          rw [beq_iff_eq] at he
          exact absurd (strEq_of_data this) he
      · exact hy b hb

theorem ssorted_sortStr (l : List String) : SSorted (sortStr l) := by
  induction l with
  | nil => simp [sortStr, SSorted]
  | cons x xs ih => exact ssorted_insertStr x (sortStr xs) ih

theorem mem_sortStr (a : String) (l : List String) : a ∈ sortStr l ↔ a ∈ l := by
  induction l with
  | nil => simp [sortStr]
  | cons x xs ih =>
    show a ∈ insertStr x (sortStr xs) ↔ _
    rw [mem_insertStr, ih]
    simp

theorem ssorted_ext : ∀ {l1 l2 : List String}, SSorted l1 → SSorted l2 →
    (∀ a, a ∈ l1 ↔ a ∈ l2) → l1 = l2 := by
  intro l1
  induction l1 with
  | nil =>
    intro l2 _ _ hm
    cases l2 with
    | nil => rfl
    | cons y ys =>
      have := (hm y).mpr (List.mem_cons_self y ys)
      simp at this
  | cons x xs ih =>
    intro l2 h1 h2 hm
    cases l2 with
    | nil =>
      have := (hm x).mp (List.mem_cons_self x xs)
      simp at this
    | cons y ys =>
      rcases List.pairwise_cons.mp h1 with ⟨hx, hxs⟩
      rcases List.pairwise_cons.mp h2 with ⟨hy, hys⟩
      have hxy : x = y := by
        rcases List.mem_cons.mp ((hm x).mp (List.mem_cons_self x xs)) with hq | hq
        · exact hq
        · rcases List.mem_cons.mp ((hm y).mpr (List.mem_cons_self y ys)) with hr | hr
          · exact hr.symm
          · have hlt1 := hy x hq
            have hlt2 := hx y hr
            have := lexLt_asymm _ _ hlt2
            rw [this] at hlt1
            cases hlt1
      subst hxy
      have htail : ∀ a, a ∈ xs ↔ a ∈ ys := by
        intro a
        constructor
        · intro ha
          rcases List.mem_cons.mp ((hm a).mp (List.mem_cons_of_mem x ha)) with hq | hq
          · subst hq
            have := hx a ha
            rw [lexLt_irrefl] at this
            cases this
          · exact hq
        · intro ha
          rcases List.mem_cons.mp ((hm a).mpr (List.mem_cons_of_mem x ha)) with hq | hq
          · subst hq
            have := hy a ha
            rw [lexLt_irrefl] at this
            cases this
          · exact hq
      rw [ih hxs hys htail]

theorem sortStr_ext (l1 l2 : List String) (hm : ∀ a, a ∈ l1 ↔ a ∈ l2) :
    sortStr l1 = sortStr l2 :=
  ssorted_ext (ssorted_sortStr l1) (ssorted_sortStr l2)
    (fun a => by rw [mem_sortStr, mem_sortStr]; exact hm a)

theorem unionSorted_comm (xs ys : List String) :
    unionSorted xs ys = unionSorted ys xs := by
  apply sortStr_ext
  intro a
  simp only [List.mem_append]
  tauto

theorem unionSorted_absorb_left (xs ys : List String) :
    unionSorted xs (unionSorted xs ys) = unionSorted xs ys := by
  apply sortStr_ext
  intro a
  simp only [List.mem_append, unionSorted, mem_sortStr]
  tauto

theorem unionSorted_assoc (xs ys zs : List String) :
    unionSorted (unionSorted xs ys) zs = unionSorted xs (unionSorted ys zs) := by
  apply sortStr_ext
  intro a
  simp only [List.mem_append, unionSorted, mem_sortStr]
  tauto

theorem unionSorted_absorb_right (xs ys : List String) :
    unionSorted (unionSorted xs ys) ys = unionSorted xs ys := by
  apply sortStr_ext
  intro a
  simp only [List.mem_append, unionSorted, mem_sortStr]
  tauto

/-! ## Helper lemmas: strategy enumeration membership -/

theorem slotStrategy_mem (slot s : String) (hs : slotStrategy slot = some s) :
    s ∈ STRATEGIES := by
  unfold slotStrategy at hs
  split_ifs at hs <;> (injection hs with h2; subst h2; decide)

theorem firstSlotStrategy_mem (slots : List String) (s : String)
    (hs : firstSlotStrategy slots = some s) : s ∈ STRATEGIES := by
  induction slots with
  | nil => cases hs
  | cons slot rest ih =>
    unfold firstSlotStrategy at hs
    cases hslot : slotStrategy slot with
    | none => rw [hslot] at hs; exact ih hs
    | some x =>
      rw [hslot] at hs
      injection hs with h2
      subst h2
      exact slotStrategy_mem slot _ hslot

theorem pick_deterministic_strategy_mem (state : SessionState) (scammer_text : String) :
    pick_deterministic_strategy state scammer_text ∈ STRATEGIES := by
  unfold pick_deterministic_strategy
  dsimp only
  split_ifs
  · decide
  · decide
  · cases hfs : firstSlotStrategy state.missingSlots with
    | none => exact List.get_mem ..
    | some s => exact firstSlotStrategy_mem _ _ hfs

theorem chooseStrategy_mem (gSel : Option String) (state : SessionState)
    (scammer_text : String) :
    chooseStrategy gSel state scammer_text ∈ STRATEGIES := by
  unfold chooseStrategy llm_select_strategy
  cases gSel with
  | none => exact pick_deterministic_strategy_mem state scammer_text
  | some s =>
    dsimp only
    by_cases hmem : s ∈ STRATEGIES
    · rw [if_pos hmem]
      dsimp only
      split_ifs
      · exact pick_deterministic_strategy_mem state scammer_text
      · exact hmem
    · rw [if_neg hmem]
      exact pick_deterministic_strategy_mem state scammer_text

/-! ## Helper lemmas: whole-turn facts -/

theorem processTurn_dispatched_eq (settings : Settings) (pre : SessionState)
    (incoming : IncomingRequest) (h : String → Nat) (gSel g1 g2 g3 : Option String)
    (cOk : Bool) :
    (processTurn settings pre incoming h gSel g1 g2 g3 cOk).dispatched =
      ((processTurn settings pre incoming h gSel g1 g2 g3 cOk).state.terminated &&
       (processTurn settings pre incoming h gSel g1 g2 g3 cOk).state.scamConfirmed &&
       !pre.finalCallbackSent) := by
  unfold processTurn
  dsimp only
  rw [dispatchStep_dispatched, dispatchStep_state_terminated, dispatchStep_state_scamConfirmed,
      terminationStep_finalCallbackSent]
  dsimp only
  rw [composeReply_state_finalCallbackSent]

theorem processTurn_flag_eq (settings : Settings) (pre : SessionState)
    (incoming : IncomingRequest) (h : String → Nat) (gSel g1 g2 g3 : Option String)
    (cOk : Bool) :
    (processTurn settings pre incoming h gSel g1 g2 g3 cOk).state.finalCallbackSent =
      (pre.finalCallbackSent ||
       (processTurn settings pre incoming h gSel g1 g2 g3 cOk).dispatched) := by
  unfold processTurn
  dsimp only
  rw [dispatchStep_state_finalCallbackSent, terminationStep_finalCallbackSent]
  dsimp only
  rw [composeReply_state_finalCallbackSent]

theorem processTurn_terminated_mono (settings : Settings) (pre : SessionState)
    (incoming : IncomingRequest) (h : String → Nat) (gSel g1 g2 g3 : Option String)
    (cOk : Bool) (ht : pre.terminated = true) :
    (processTurn settings pre incoming h gSel g1 g2 g3 cOk).state.terminated = true := by
  unfold processTurn
  dsimp only
  rw [dispatchStep_state_terminated]
  apply terminationStep_terminated_mono
  dsimp only
  rw [composeReply_state_terminated]
  exact ht

set_option maxRecDepth 20000

/-! ## Claim theorems -/

/-- C3: the Callback Dispatcher is invoked exactly when the turn ends
with the session terminated, scam-confirmed and the callback flag still
clear; the flag is set immediately after the attempt regardless of the
POST outcome, and once the attempt has happened no later turn of the
session can dispatch again, while the reply of the turn is produced
irrespective of the outcome oracle. -/
theorem callback_at_most_once (settings : Settings) (pre : SessionState)
    (incoming : IncomingRequest) (h : String → Nat) (gSel g1 g2 g3 : Option String)
    (cOk : Bool) :
    (processTurn settings pre incoming h gSel g1 g2 g3 cOk).dispatched =
      ((processTurn settings pre incoming h gSel g1 g2 g3 cOk).state.terminated &&
       (processTurn settings pre incoming h gSel g1 g2 g3 cOk).state.scamConfirmed &&
       !pre.finalCallbackSent) ∧
    (processTurn settings pre incoming h gSel g1 g2 g3 cOk).state.finalCallbackSent =
      (pre.finalCallbackSent ||
       (processTurn settings pre incoming h gSel g1 g2 g3 cOk).dispatched) ∧
    (∀ (cOk2 : Bool),
      (processTurn settings pre incoming h gSel g1 g2 g3 cOk2).reply =
        (processTurn settings pre incoming h gSel g1 g2 g3 cOk).reply) ∧
    (∀ (incoming2 : IncomingRequest) (h2 : String → Nat)
        (gSel2 g12 g22 g32 : Option String) (cOk2 : Bool),
      (processTurn settings pre incoming h gSel g1 g2 g3 cOk).dispatched = true →
      (processTurn settings (processTurn settings pre incoming h gSel g1 g2 g3 cOk).state
        incoming2 h2 gSel2 g12 g22 g32 cOk2).dispatched = false) := by
  refine ⟨processTurn_dispatched_eq .., processTurn_flag_eq .., fun cOk2 => rfl, ?_⟩
  intro incoming2 h2 gSel2 g12 g22 g32 cOk2 hd
  have hflag : (processTurn settings pre incoming h gSel g1 g2 g3 cOk).state.finalCallbackSent
      = true := by
    rw [processTurn_flag_eq, hd]
    simp
  rw [processTurn_dispatched_eq, hflag]
  simp

/-- C4: once a session is terminated it stays terminated on every later
turn, whatever the input and oracle outcomes. -/
theorem terminated_monotone (settings : Settings) (pre : SessionState)
    (incoming : IncomingRequest) (h : String → Nat) (gSel g1 g2 g3 : Option String)
    (cOk : Bool) (ht : pre.terminated = true) :
    (processTurn settings pre incoming h gSel g1 g2 g3 cOk).state.terminated = true :=
  processTurn_terminated_mono settings pre incoming h gSel g1 g2 g3 cOk ht

/-- Witness for C4 at a concrete terminated session and probe message. -/
theorem terminated_monotone_witness :
    (processTurn sampleSettings terminatedState userReq (fun _ => 0) none none none none
      true).state.terminated = true :=
  terminated_monotone _ _ _ _ _ _ _ _ _ rfl

/-- C10: on every valid-path turn the returned reply differs as an exact
string from the session's stored last reply of the previous turn, and the
stored last reply is then updated to the returned reply. -/
theorem reply_never_repeats (settings : Settings) (pre : SessionState)
    (incoming : IncomingRequest) (h : String → Nat) (gSel g1 g2 g3 : Option String)
    (cOk : Bool) :
    (processTurn settings pre incoming h gSel g1 g2 g3 cOk).state.lastReply =
      some ((processTurn settings pre incoming h gSel g1 g2 g3 cOk).reply) ∧
    some ((processTurn settings pre incoming h gSel g1 g2 g3 cOk).reply) ≠
      pre.lastReply := by
  constructor
  · unfold processTurn
    dsimp only
    rw [dispatchStep_state_lastReply, terminationStep_lastReply]
  · unfold processTurn
    dsimp only
    rw [composeReply_state_lastReply]
    exact dedupReply_ne _ _

/-- C5 amended: the max-turn termination rule fires on the caller-supplied
history length (len(conversationHistory)+1), not on the session's internal
turn counter; when that count reaches the configured maximum on a
scam-confirmed turn, the session terminates, the dispatch attempt happens
exactly when the callback flag was still clear, and the flag is set
afterwards. -/
theorem max_turns_history_termination (settings : Settings) (pre : SessionState)
    (incoming : IncomingRequest) (h : String → Nat) (gSel g1 g2 g3 : Option String)
    (cOk : Bool) (hm : settings.max_turns ≤ (histOr incoming).length + 1)
    (hc : (processTurn settings pre incoming h gSel g1 g2 g3 cOk).state.scamConfirmed = true) :
    (processTurn settings pre incoming h gSel g1 g2 g3 cOk).state.terminated = true ∧
    (processTurn settings pre incoming h gSel g1 g2 g3 cOk).dispatched =
      !pre.finalCallbackSent ∧
    (processTurn settings pre incoming h gSel g1 g2 g3 cOk).state.finalCallbackSent = true := by
  have hterm : (processTurn settings pre incoming h gSel g1 g2 g3 cOk).state.terminated
      = true := by
    unfold processTurn at hc ⊢
    dsimp only at hc ⊢
    rw [dispatchStep_state_scamConfirmed, terminationStep_scamConfirmed] at hc
    rw [dispatchStep_state_terminated]
    exact terminationStep_maxTurns _ _ _ hc hm
  have hdisp : (processTurn settings pre incoming h gSel g1 g2 g3 cOk).dispatched =
      !pre.finalCallbackSent := by
    rw [processTurn_dispatched_eq, hterm, hc]
    simp
  refine ⟨hterm, hdisp, ?_⟩
  rw [processTurn_flag_eq, hdisp]
  simp

/-- Witness for the amended C5: with a one-turn budget and an empty
history, a confirmed session terminates on this turn and makes its single
dispatch attempt. -/
theorem max_turns_history_termination_witness :
    (processTurn sampleSettings1 confirmedState helloReq (fun _ => 0) none none none none
      true).state.terminated = true ∧
    (processTurn sampleSettings1 confirmedState helloReq (fun _ => 0) none none none none
      true).dispatched = !confirmedState.finalCallbackSent ∧
    (processTurn sampleSettings1 confirmedState helloReq (fun _ => 0) none none none none
      true).state.finalCallbackSent = true :=
  max_turns_history_termination _ _ _ _ _ _ _ _ _ (by decide)
    (by with_unfolding_all decide)

/-- Counterexample for C5 as stated: a session whose internal turn counter
reaches the configured maximum (2) on a scam-confirmed turn with an empty
caller-supplied history does not terminate, and no callback attempt is
made. -/
theorem max_turns_internal_counter_cex :
    (processTurn sampleSettings confirmedState helloReq (fun _ => 0) none none none none
      true).state.totalMessagesExchanged = sampleSettings.max_turns ∧
    (processTurn sampleSettings confirmedState helloReq (fun _ => 0) none none none none
      true).state.scamConfirmed = true ∧
    (processTurn sampleSettings confirmedState helloReq (fun _ => 0) none none none none
      true).state.terminated = false ∧
    (processTurn sampleSettings confirmedState helloReq (fun _ => 0) none none none none
      true).dispatched = false := by
  refine ⟨by with_unfolding_all decide, by with_unfolding_all decide,
    by with_unfolding_all decide, by with_unfolding_all decide⟩

/-- Safety of the final guardrail, for an arbitrary candidate text. -/
theorem finalGuard_spec (cand : String) :
    asks_for_secret (finalGuard cand) = false ∧
    contains_banned (finalGuard cand) = false ∧
    ((asks_for_secret cand || contains_banned cand) = true →
      finalGuard cand = FIXED_SAFE_REPLY) := by
  unfold finalGuard
  by_cases hb : (asks_for_secret cand || contains_banned cand) = true
  · rw [if_pos hb]
    exact ⟨by decide, by decide, fun _ => rfl⟩
  · rw [if_neg hb]
    have hb' : (asks_for_secret cand || contains_banned cand) = false := by
      revert hb
      cases asks_for_secret cand || contains_banned cand <;> simp
    have hparts := Bool.or_eq_false_iff.mp hb'
    exact ⟨hparts.1, hparts.2, fun hcontra => absurd hcontra hb⟩

/-- C6: merge over Intelligence is field-wise set union followed by
sorting, and it is idempotent, commutative and associative; in
particular merging the same incoming result twice produces no change. -/
theorem merge_extraction_algebra (a b c : ExtractionResult) :
    merge_extraction a (merge_extraction a b) = merge_extraction a b ∧
    merge_extraction a b = merge_extraction b a ∧
    merge_extraction (merge_extraction a b) c = merge_extraction a (merge_extraction b c) ∧
    merge_extraction (merge_extraction a b) b = merge_extraction a b := by
  refine ⟨?_, ?_, ?_, ?_⟩ <;> (simp only [merge_extraction]; congr 1) <;>
    first
      | apply unionSorted_absorb_left
      | apply unionSorted_comm
      | apply unionSorted_assoc
      | apply unionSorted_absorb_right

/-- C2: the Strategy Selector only ever produces members of the fixed
closed enumeration: an advisory answer is accepted only when it names a
value literally present in the enumeration, and every other advisory
outcome falls back to the deterministic procedure, whose result is also
in the enumeration. -/
theorem strategy_selection_bounded (gSel : Option String) (state : SessionState)
    (scammer_text : String) :
    chooseStrategy gSel state scammer_text ∈ STRATEGIES ∧
    (∀ (o : Option String) (s : String), llm_select_strategy o = some s →
      s ∈ STRATEGIES) := by
  refine ⟨chooseStrategy_mem gSel state scammer_text, ?_⟩
  intro o s hs
  cases o with
  | none => cases hs
  | some t =>
    unfold llm_select_strategy at hs
    dsimp only at hs
    split_ifs at hs with hmem
    injection hs with h2
    subst h2
    exact hmem

/-- C1: for every session state, counterpart message, history and oracle
outcome of the generation service, the composed reply matches no
secret-disclosure pattern and contains no banned term, and whenever the
candidate entering the final guardrail is still unsafe it is replaced by
the one fixed hard-coded safe sentence. -/
theorem reply_composer_never_unsafe (h : String → Nat) (state : SessionState)
    (scammer_text : String) (history : List PyMessage) (gSel g1 g2 g3 : Option String) :
    asks_for_secret (build_agent_reply h state scammer_text history gSel g1 g2 g3).reply
      = false ∧
    contains_banned (build_agent_reply h state scammer_text history gSel g1 g2 g3).reply
      = false ∧
    ((asks_for_secret (composeCandidate h state scammer_text history gSel g1 g2 g3).2 ||
      contains_banned (composeCandidate h state scammer_text history gSel g1 g2 g3).2) = true →
      (build_agent_reply h state scammer_text history gSel g1 g2 g3).reply =
        FIXED_SAFE_REPLY) := by
  have hre : (build_agent_reply h state scammer_text history gSel g1 g2 g3).reply =
      finalGuard (composeCandidate h state scammer_text history gSel g1 g2 g3).2 := by
    simp only [build_agent_reply]
  rw [hre]
  exact finalGuard_spec _

/-- C8: the deterministic template choice is a pure function of the hash
oracle, the strategy, the session identifier, the turn counter and the
stored last reply, so repeated runs with identical inputs reproduce the
same choice. -/
theorem template_choice_reproducible (h : String → Nat) (strategy : String)
    (s1 s2 : SessionState) (hid : s1.sessionId = s2.sessionId)
    (hn : s1.totalMessagesExchanged = s2.totalMessagesExchanged)
    (hl : s1.lastReply = s2.lastReply) :
    pick_from_templates h strategy s1 = pick_from_templates h strategy s2 := by
  unfold pick_from_templates
  rw [hid, hn, hl]

/-- Witness for C8: two sessions differing in score, activity and notes
but agreeing on identifier, turn counter and last reply get the same
template. -/
theorem template_choice_reproducible_witness :
    pick_from_templates (fun s => s.length) "ASK_OFFICIAL_LINK_TICKET"
      (initializeSession "abc") =
    pick_from_templates (fun s => s.length) "ASK_OFFICIAL_LINK_TICKET"
      { initializeSession "abc" with
        scamScore := 1, agentActive := true, agentNotes := "x" } :=
  template_choice_reproducible _ _ _ _ rfl rfl rfl

/-- Every lexicon weight is non-negative. -/
theorem scam_keywords_nonneg : ∀ p ∈ SCAM_KEYWORDS, (0 : ℚ) ≤ p.2 := by
  with_unfolding_all decide

/-- No phrase of the lexicon is spelled like either synthetic marker. -/
theorem keyword_fst_ne : ∀ p ∈ SCAM_KEYWORDS, p.1 ≠ "url" ∧ p.1 ≠ "phone" := by
  decide

/-- C7 amended: the detector score is clamped into [0,1], the indicator
list is strictly sorted, every indicator is either a lexicon phrase
actually substring-matched in the lower-cased text or one of the two
synthetic markers url and phone, and each marker appears in the list
exactly when its regex pattern matched (the marker strings themselves
need not be substrings of the text). -/
theorem detector_score_indicators (text : String) :
    0 ≤ (detect_scam_intent text).score ∧
    (detect_scam_intent text).score ≤ 1 ∧
    SSorted (detect_scam_intent text).indicators ∧
    ("url" ∈ (detect_scam_intent text).indicators ↔
      urlSearchB (toLowerStr text) = true) ∧
    ("phone" ∈ (detect_scam_intent text).indicators ↔
      phoneSearchB (toLowerStr text) = true) ∧
    (∀ i ∈ (detect_scam_intent text).indicators,
      (containsSub (toLowerStr text) i = true ∧ ∃ w, (i, w) ∈ SCAM_KEYWORDS) ∨
      (i = "url" ∧ urlSearchB (toLowerStr text) = true) ∨
      (i = "phone" ∧ phoneSearchB (toLowerStr text) = true)) := by
  unfold detect_scam_intent
  dsimp only
  have h0 : (0 : ℚ) ≤
      ((SCAM_KEYWORDS.filter (fun kw => containsSub (toLowerStr text) kw.1)).map
        Prod.snd).sum := by
    apply List.sum_nonneg
    intro x hx
    rcases List.mem_map.mp hx with ⟨p, hp, rfl⟩
    exact scam_keywords_nonneg p (List.mem_of_mem_filter hp)
  have hnotkw : ∀ marker : String,
      (∀ p ∈ SCAM_KEYWORDS, p.1 ≠ marker) →
      marker ∉ (SCAM_KEYWORDS.filter
        (fun kw => containsSub (toLowerStr text) kw.1)).map Prod.fst := by
    intro marker hne hmem
    rcases List.mem_map.mp hmem with ⟨q, hq, hq1⟩
    exact hne q (List.mem_of_mem_filter hq) hq1
  have hnourl := hnotkw "url" (fun p hp => (keyword_fst_ne p hp).1)
  have hnophone := hnotkw "phone" (fun p hp => (keyword_fst_ne p hp).2)
  refine ⟨?_, ?_, ?_, ?_, ?_, ?_⟩
  · apply le_min _ zero_le_one
    split_ifs <;> linarith
  · exact min_le_right _ _
  · exact ssorted_sortStr _
  · rw [mem_sortStr]
    constructor
    · intro hmem
      by_cases hu : urlSearchB (toLowerStr text) = true
      · exact hu
      · exfalso
        simp only [if_neg hu] at hmem
        by_cases hp : phoneSearchB (toLowerStr text) = true
        · simp only [if_pos hp] at hmem
          rcases List.mem_append.mp hmem with hmem | hmem
          · exact hnourl hmem
          · exact absurd (List.mem_singleton.mp hmem) (by decide)
        · simp only [if_neg hp] at hmem
          exact hnourl hmem
    · intro hmatch
      simp only [if_pos hmatch]
      by_cases hp : phoneSearchB (toLowerStr text) = true
      · simp [if_pos hp]
      · simp [if_neg hp]
  · rw [mem_sortStr]
    constructor
    · intro hmem
      by_cases hp : phoneSearchB (toLowerStr text) = true
      · exact hp
      · exfalso
        simp only [if_neg hp] at hmem
        by_cases hu : urlSearchB (toLowerStr text) = true
        · simp only [if_pos hu] at hmem
          rcases List.mem_append.mp hmem with hmem | hmem
          · exact hnophone hmem
          · exact absurd (List.mem_singleton.mp hmem) (by decide)
        · simp only [if_neg hu] at hmem
          exact hnophone hmem
    · intro hmatch
      simp only [if_pos hmatch]
      simp
  · intro i hi
    rw [mem_sortStr] at hi
    split_ifs at hi with hp hu hu
    · rcases List.mem_append.mp hi with hi | hi
      · rcases List.mem_append.mp hi with hi | hi
        · rcases List.mem_map.mp hi with ⟨q, hq, rfl⟩
          rcases List.mem_filter.mp hq with ⟨hqmem, hqsub⟩
          exact Or.inl ⟨hqsub, q.2, by simpa using hqmem⟩
        · simp only [List.mem_singleton] at hi
          exact Or.inr (Or.inl ⟨hi, hu⟩)
      · simp only [List.mem_singleton] at hi
        exact Or.inr (Or.inr ⟨hi, hp⟩)
    · rcases List.mem_append.mp hi with hi | hi
      · rcases List.mem_map.mp hi with ⟨q, hq, rfl⟩
        rcases List.mem_filter.mp hq with ⟨hqmem, hqsub⟩
        exact Or.inl ⟨hqsub, q.2, by simpa using hqmem⟩
      · simp only [List.mem_singleton] at hi
        exact Or.inr (Or.inr ⟨hi, hp⟩)
    · rcases List.mem_append.mp hi with hi | hi
      · rcases List.mem_map.mp hi with ⟨q, hq, rfl⟩
        rcases List.mem_filter.mp hq with ⟨hqmem, hqsub⟩
        exact Or.inl ⟨hqsub, q.2, by simpa using hqmem⟩
      · simp only [List.mem_singleton] at hi
        exact Or.inr (Or.inl ⟨hi, hu⟩)
    · rcases List.mem_map.mp hi with ⟨q, hq, rfl⟩
      rcases List.mem_filter.mp hq with ⟨hqmem, hqsub⟩
      exact Or.inl ⟨hqsub, q.2, by simpa using hqmem⟩

/-- Counterexample for C7 as stated: on the input http://x.co the
indicator list is exactly the marker url, which is not substring-matched
in the lower-cased text. -/
theorem detector_url_indicator_cex :
    "url" ∈ (detect_scam_intent "http://x.co").indicators ∧
    containsSub (toLowerStr "http://x.co") "url" = false := by
  constructor
  · with_unfolding_all decide
  · decide

/-- Counterexample for C9 as stated: a request with missing
authentication is answered with the 401 error envelope, not the
two-field success envelope. -/
theorem guard_auth_error_cex :
    tester_body_guard (some sampleSettings) none RawBody.blank =
      GuardOutcome.errorResp 401 "error" "Invalid API key or malformed request" ∧
    isSuccessEnvelope (tester_body_guard (some sampleSettings) none RawBody.blank) = false :=
  ⟨rfl, rfl⟩

/-- C9 amended: under correct authentication every malformed or missing
body is answered with the exact success envelope carrying the neutral
sentence Hello, while missing or incorrect authentication is answered
with the 401 error envelope. -/
theorem guard_envelopes (settings : Settings) (body : RawBody) :
    tester_body_guard (some settings) none body =
      GuardOutcome.errorResp 401 "error" "Invalid API key or malformed request" ∧
    (∀ k : String, ((k == "") || !(k == settings.api_key)) = true →
      tester_body_guard (some settings) (some k) body =
        GuardOutcome.errorResp 401 "error" "Invalid API key or malformed request") ∧
    (∀ k : String, (!(k == "") && (k == settings.api_key)) = true →
      malformedBody body = true →
      tester_body_guard (some settings) (some k) body =
        GuardOutcome.successResp "success" "Hello") := by
  refine ⟨rfl, ?_, ?_⟩
  · intro k hk
    unfold tester_body_guard
    dsimp only
    have hcond : (!(!(k == "") && k == settings.api_key)) = true := by
      rw [Bool.or_eq_true] at hk
      rcases hk with hx | hx
      · simp [hx]
      · simp only [Bool.not_eq_true'] at hx
        simp [hx]
    rw [if_pos hcond]
  · intro k hk hm
    unfold tester_body_guard
    dsimp only
    rw [Bool.and_eq_true] at hk
    rcases hk with ⟨hk1, hk2⟩
    have hcond : (!(!(k == "") && k == settings.api_key)) = false := by
      simp only [hk1, hk2, Bool.and_true, Bool.not_not]
      simp only [Bool.not_eq_true'] at hk1
      simp [hk1]
    rw [if_neg (by simp [hcond])]
    cases body with
    | blank => rfl
    | badJson => rfl
    | json v =>
      unfold malformedBody at hm
      cases v with
      | obj fields =>
        dsimp only at hm ⊢
        cases hgt : guardMessageText (JValue.obj fields) with
        | none => rfl
        | some t =>
          rw [hgt] at hm
          dsimp only at hm
          dsimp only
          rw [if_pos hm]
      | null => rfl
      | bool b => rfl
      | num q => rfl
      | str s => rfl
      | arr elems => rfl
